import Mathlib

/-!
Verification development for the Chromalyze repository: a shallow embedding of
the image-analysis pipeline components (face-shape classification, color-season
classification, the result adapter in the entry component, the results display,
the upload-form validation and the color-draping walkthrough state machine),
together with theorems settling the specification claims about them.

Numeric values are embedded as rationals; machine floating point is modelled
exactly, which is faithful here because every shipped constant is a small
decimal and no claim depends on rounding behaviour.
-/

namespace Chromalyze

/-! Basic numeric helper: clamping to the unit interval. -/

/-- Clamp a rational to the closed interval [0,1]. -/
def clamp01 (q : ℚ) : ℚ := max 0 (min 1 q)

theorem clamp01_nonneg (q : ℚ) : 0 ≤ clamp01 q := le_max_left 0 _

theorem clamp01_le_one (q : ℚ) : clamp01 q ≤ 1 := by
  unfold clamp01
  rcases le_total (min 1 q) 0 with h | h
  · exact le_trans (max_le le_rfl h) zero_le_one
  · exact max_le (le_trans h (min_le_left 1 q)) (min_le_left 1 q)

/-! Face-shape data model. -/

/-- The fixed seven-way face-shape enumeration used throughout the repository. -/
inductive FaceShape
  | heart
  | oblong
  | oval
  | round
  | square
  | triangle
  | diamond
deriving DecidableEq, Repr

/-- Every face shape is a member of the fixed enumeration list. -/
theorem faceShape_mem_enum (s : FaceShape) :
    s ∈ [FaceShape.heart, FaceShape.oblong, FaceShape.oval, FaceShape.round,
      FaceShape.square, FaceShape.triangle, FaceShape.diamond] := by
  cases s <;> simp

/-- Derived scalar face measurements consumed by the classifier. -/
structure FaceMeasurements where
  faceWidth : ℚ
  faceHeight : ℚ
  jawWidth : ℚ
  foreheadWidth : ℚ
  cheekboneWidth : ℚ
  jawlineAngle : ℚ
deriving DecidableEq, Repr

/-- Error taxonomy of the analysis core. -/
inductive AnalysisError
  | invalidInput
  | degenerateGeometry
  | insufficientSamples
deriving DecidableEq, Repr

/-- A face-shape classification result: label plus confidence. -/
structure FaceShapeResult where
  faceShape : FaceShape
  confidence : ℚ
deriving DecidableEq, Repr

/-- Modelled from the spec: the ordered (label, score) rule table of the
Landmark-to-Shape Classifier. The classifier implementation is not among the
sources (only its callers are), so the rule thresholds of spec section 4.2 are
realised as graded scores in [0,1]: closeness of the height/width ratio to 1
together with near-equal widths scores round; a high ratio scores oblong; a
jaw narrower than the forehead scores heart; a jaw near the cheekbones and
wider than the forehead scores triangle; clearly widest cheekbones score
diamond; near-equal width and height with a sharp jawline angle scores square;
oval is the default with a fixed middle score. -/
def ruleScores (m : FaceMeasurements) : List (FaceShape × ℚ) :=
  let w := m.faceWidth
  let r := m.faceHeight / w
  [ (FaceShape.round,
      clamp01 (1 - |r - 1| -
        (|m.jawWidth - m.foreheadWidth| + |m.foreheadWidth - m.cheekboneWidth|) / w)),
    (FaceShape.oblong, clamp01 (r - 13/10)),
    (FaceShape.heart, clamp01 ((m.foreheadWidth - m.jawWidth) / w)),
    (FaceShape.triangle,
      clamp01 ((m.jawWidth - m.foreheadWidth) / w - |m.jawWidth - m.cheekboneWidth| / w)),
    (FaceShape.diamond,
      clamp01 ((m.cheekboneWidth - max m.jawWidth m.foreheadWidth) / w)),
    (FaceShape.square, clamp01 (1 - |r - 1| - |m.jawlineAngle - 90| / 90)),
    (FaceShape.oval, 1/2) ]

/-- Best and second-best scored entries of a rule table: returns the best
(label, score) pair together with the runner-up score. -/
def bestTwo : List (FaceShape × ℚ) → (FaceShape × ℚ) × ℚ
  | [] => ((FaceShape.oval, 0), 0)
  | p :: rest =>
    rest.foldl
      (fun acc q =>
        if acc.1.2 < q.2 then (q, acc.1.2)
        else if acc.2 < q.2 then (acc.1, q.2)
        else acc)
      (p, 0)

/-- Modelled from the spec: the Landmark-to-Shape Classifier of spec section
4.2 over derived measurements (the implementation is absent from the sources).
Degenerate geometry (zero or negative face width or height) fails with
DegenerateGeometry; otherwise the ordered rule table is scored, the
best-scoring rule gives the label (a tie defaults to oval), and the confidence
is the margin between the best and second-best scores clamped to [0,1]. -/
def classifyFaceShape (m : FaceMeasurements) : Except AnalysisError FaceShapeResult :=
  if m.faceWidth ≤ 0 ∨ m.faceHeight ≤ 0 then
    Except.error AnalysisError.degenerateGeometry
  else
    Except.ok
      { faceShape :=
          if (bestTwo (ruleScores m)).1.2 = (bestTwo (ruleScores m)).2 then FaceShape.oval
          else (bestTwo (ruleScores m)).1.1
        confidence := clamp01 ((bestTwo (ruleScores m)).1.2 - (bestTwo (ruleScores m)).2) }

/-! Data model of the shipped UI layer (embedded from the sources). -/

/-- A named color swatch, as in the palette interfaces of the entry component
and the results display. -/
structure NamedColor where
  name : String
  hex : String
deriving DecidableEq, Repr

/-- The palette record of the basic analysis result. -/
structure Palette where
  description : String
  recommended : List NamedColor
  avoid : List NamedColor
deriving DecidableEq, Repr

/-- The basic analysis result consumed by the entry component and the results
display: face shape and color season labels, an optional detected-face count
and an optional palette. -/
structure BasicAnalysisResult where
  face_shape : String
  color_season : String
  faces_detected : Option Nat
  palette : Option Palette
deriving DecidableEq, Repr

/-- A Lab color triple. -/
structure LabColor where
  L : ℚ
  a : ℚ
  b : ℚ
deriving DecidableEq, Repr

/-- The measurements record carried inside the comprehensive result (it
additionally stores the derived height/width ratio). -/
structure MeasurementsRecord where
  faceWidth : ℚ
  faceHeight : ℚ
  jawWidth : ℚ
  foreheadWidth : ℚ
  cheekboneWidth : ℚ
  faceRatio : ℚ
  jawlineAngle : ℚ
deriving DecidableEq, Repr

/-- The face-shape portion of the comprehensive analysis result. -/
structure FaceShapePortion where
  faceShape : String
  confidence : ℚ
  landmarks : List (ℚ × ℚ)
  measurements : MeasurementsRecord
deriving DecidableEq, Repr

/-- Season recommendation lists inside the color-season portion. -/
structure SeasonRecommendations where
  bestColors : List String
  avoidColors : List String
  neutrals : List String
  metals : List String
deriving DecidableEq, Repr

/-- The color-season portion of the comprehensive analysis result. -/
structure ColorSeasonPortion where
  season : String
  undertone : String
  confidence : ℚ
  dominantColors : List LabColor
  skinTone : LabColor
  contrast : ℚ
  chroma : ℚ
  lightness : ℚ
  recommendations : SeasonRecommendations
deriving DecidableEq, Repr

/-- The color tier lists of the recommendation set. -/
structure ColorTiers where
  primary : List String
  secondary : List String
  accent : List String
  neutrals : List String
  metals : List String
  avoid : List String
deriving DecidableEq, Repr

/-- Makeup guidance lists of the recommendation set. -/
structure MakeupGuidance where
  foundation : List String
  lipColors : List String
  eyeColors : List String
  blush : List String
  techniques : List String
deriving DecidableEq, Repr

/-- Styling guidance lists of the recommendation set. -/
structure StylingGuidance where
  clothing : List String
  patterns : List String
  necklines : List String
  general : List String
deriving DecidableEq, Repr

/-- The recommendation set of the comprehensive analysis result. -/
structure RecommendationSet where
  hairstyles : List String
  colors : ColorTiers
  accessories : List String
  makeup : MakeupGuidance
  styling : StylingGuidance
deriving DecidableEq, Repr

/-- The comprehensive analysis result record, as constructed by the entry
component when handing off to the walkthrough. -/
structure ComprehensiveAnalysisResult where
  faceShape : FaceShapePortion
  colorSeason : ColorSeasonPortion
  recommendations : RecommendationSet
  confidence : ℚ
  processingTime : ℚ
deriving DecidableEq, Repr

/-- The comprehensive result assembled by handleStartWalkthrough in the entry
component: the face-shape and color-season labels are taken from the basic
result and the palette lists are sliced into tiers, while every confidence, the
measurements, the undertone and the remaining descriptors are fixed
placeholder constants. -/
def assembleComprehensiveResult (r : BasicAnalysisResult) : ComprehensiveAnalysisResult :=
  { faceShape :=
      { faceShape := r.face_shape
        confidence := 4/5
        landmarks := []
        measurements :=
          { faceWidth := 100
            faceHeight := 120
            jawWidth := 80
            foreheadWidth := 90
            cheekboneWidth := 95
            faceRatio := 6/5
            jawlineAngle := 45 } }
    colorSeason :=
      { season := r.color_season
        undertone := "neutral"
        confidence := 4/5
        dominantColors := [⟨50, 0, 0⟩]
        skinTone := ⟨50, 0, 0⟩
        contrast := 1/2
        chroma := 20
        lightness := 50
        recommendations :=
          { bestColors :=
              match r.palette with
              | some p => p.recommended.map (fun c => c.name)
              | none => []
            avoidColors :=
              match r.palette with
              | some p => p.avoid.map (fun c => c.name)
              | none => []
            neutrals := ["Gray", "Beige", "Navy"]
            metals := ["Silver", "Gold"] } }
    recommendations :=
      { hairstyles := []
        colors :=
          { primary :=
              match r.palette with
              | some p => (p.recommended.take 4).map (fun c => c.hex)
              | none => []
            secondary :=
              match r.palette with
              | some p => ((p.recommended.drop 4).take 4).map (fun c => c.hex)
              | none => []
            accent :=
              match r.palette with
              | some p => ((p.recommended.drop 8).take 4).map (fun c => c.hex)
              | none => []
            neutrals := ["#808080", "#F5F5DC", "#000080"]
            metals := ["Silver", "Gold"]
            avoid :=
              match r.palette with
              | some p => p.avoid.map (fun c => c.hex)
              | none => [] }
        accessories := []
        makeup := { foundation := [], lipColors := [], eyeColors := [], blush := [], techniques := [] }
        styling := { clothing := [], patterns := [], necklines := [], general := [] } }
    confidence := 4/5
    processingTime := 1000 }

/-! Results display (embedded from the results-display component). -/

/-- The detected-faces banner text of the results display: zero faces renders
the general-analysis notice, one face the singular notice, and more faces the
primary-face notice. -/
def facesDetectedBanner : Nat → String
  | 0 => "No face detected, providing general analysis"
  | 1 => "1 face detected"
  | n => toString n ++ " faces detected (analyzed primary face)"

/-- The rendered palette block of the results display. -/
structure RenderedPalette where
  description : String
  recommendedSwatches : List NamedColor
  avoidSwatches : List NamedColor
deriving DecidableEq, Repr

/-- Abstraction of the page rendered by the results display: the title, the
optional detected-faces banner, the two section headings and the optional
palette block (present exactly when the result carries a palette). -/
structure RenderedResults where
  title : String
  banner : Option String
  faceShapeHeading : String
  colorSeasonHeading : String
  paletteSection : Option RenderedPalette
deriving DecidableEq, Repr

/-- The results display as a total rendering function: it always produces a
page with both the face-shape and color-season sections, shows the banner
exactly when a face count is present, and shows the palette block exactly when
a palette is present. -/
def renderResults (r : BasicAnalysisResult) : RenderedResults :=
  { title := "Analysis Complete"
    banner := r.faces_detected.map facesDetectedBanner
    faceShapeHeading := "Face Shape: " ++ r.face_shape
    colorSeasonHeading := "Color Season: " ++ r.color_season
    paletteSection := r.palette.map (fun p => ⟨p.description, p.recommended, p.avoid⟩) }

/-! Entry component choice logic (embedded from the entry component). -/

/-- Which view the entry component renders. -/
inductive EntryView
  | resultsDisplay
  | entryScreen
deriving DecidableEq, Repr

/-- The walkthrough-data check of the entry component: a palette with at least
one recommended color and a non-empty photo URL are both required. -/
def hasWalkthroughData (r : BasicAnalysisResult) (userPhotoUrl : Option String) : Bool :=
  (match r.palette with
   | some p => decide (0 < p.recommended.length)
   | none => false)
  && (match userPhotoUrl with
      | some u => decide (0 < u.length)
      | none => false)

/-- The entry component view selection: without the choice flag or without
walkthrough data it renders the results display, otherwise the entry screen. -/
def entryView (showChoice : Bool) (hasData : Bool) : EntryView :=
  if !showChoice || !hasData then EntryView.resultsDisplay else EntryView.entryScreen

/-! Color statistics (spec-modelled) and the season classifier (spec-modelled). -/

/-- Componentwise sum of a list of Lab colors. -/
def labSum : List LabColor → LabColor
  | [] => ⟨0, 0, 0⟩
  | c :: cs =>
    let t := labSum cs
    ⟨c.L + t.L, c.a + t.a, c.b + t.b⟩

/-- Modelled from the spec: the aggregate color statistics of spec section 4.3
(the color-space utility implementation is absent from the sources). The mean
of a non-empty Lab sample set is returned; the empty set fails with
InsufficientSamples. -/
def colorStatistics (samples : List LabColor) : Except AnalysisError LabColor :=
  match samples with
  | [] => Except.error AnalysisError.insufficientSamples
  | c :: cs =>
    let t := labSum (c :: cs)
    let n : ℚ := ((c :: cs).length : ℚ)
    Except.ok ⟨t.L / n, t.a / n, t.b / n⟩

/-- The twelve-way color-season enumeration. -/
inductive Season
  | brightSpring
  | trueSpring
  | lightSpring
  | lightSummer
  | trueSummer
  | softSummer
  | softAutumn
  | trueAutumn
  | deepAutumn
  | deepWinter
  | trueWinter
  | brightWinter
deriving DecidableEq, Repr

/-- A point of the four-dimensional descriptor space (undertone, contrast,
lightness, chroma); warm is encoded as positive undertone and cool as
negative. -/
structure Descriptor where
  undertone : ℚ
  contrast : ℚ
  lightness : ℚ
  chroma : ℚ
deriving DecidableEq, Repr

/-- Modelled from the spec: the fixed reference centroids per season category
of spec section 4.4 (the season-classifier implementation is absent from the
sources, so representative centroid values are fixed here). -/
def seasonCentroids : List (Season × Descriptor) :=
  [ (Season.brightSpring, ⟨1, 7/10, 65, 60⟩),
    (Season.trueSpring, ⟨1, 1/2, 70, 50⟩),
    (Season.lightSpring, ⟨1/2, 3/10, 80, 40⟩),
    (Season.lightSummer, ⟨-1/2, 3/10, 80, 30⟩),
    (Season.trueSummer, ⟨-1, 1/2, 70, 30⟩),
    (Season.softSummer, ⟨-1/2, 2/5, 60, 20⟩),
    (Season.softAutumn, ⟨1/2, 2/5, 55, 25⟩),
    (Season.trueAutumn, ⟨1, 3/5, 50, 45⟩),
    (Season.deepAutumn, ⟨1, 4/5, 35, 40⟩),
    (Season.deepWinter, ⟨-1, 9/10, 30, 45⟩),
    (Season.trueWinter, ⟨-1, 4/5, 40, 55⟩),
    (Season.brightWinter, ⟨-1/2, 9/10, 50, 65⟩) ]

/-- Squared Euclidean distance in descriptor space; the Euclidean metric is
realised through its square, which induces the same nearest-centroid order. -/
def descSqDist (d e : Descriptor) : ℚ :=
  (d.undertone - e.undertone) ^ 2 + (d.contrast - e.contrast) ^ 2 +
    (d.lightness - e.lightness) ^ 2 + (d.chroma - e.chroma) ^ 2

/-- Nearest and second-nearest centroids of a descriptor: returns the nearest
(season, distance) pair together with the second-nearest distance. -/
def nearestTwo (d : Descriptor) : List (Season × Descriptor) → (Season × ℚ) × ℚ
  | [] => ((Season.trueSummer, 0), 0)
  | [c] => ((c.1, descSqDist d c.2), descSqDist d c.2)
  | c₁ :: c₂ :: cs =>
    let q₁ := descSqDist d c₁.2
    let q₂ := descSqDist d c₂.2
    let init := if q₂ < q₁ then ((c₂.1, q₂), q₁) else ((c₁.1, q₁), q₂)
    cs.foldl
      (fun acc e =>
        let q := descSqDist d e.2
        if q < acc.1.2 then ((e.1, q), acc.1.2)
        else if q < acc.2 then (acc.1, q)
        else acc)
      init

/-- Modelled from the spec: the nearest-centroid season classification of spec
section 4.4 (the implementation is absent from the sources). The season is the
nearest centroid and the confidence is one minus the ratio of the nearest to
the second-nearest distance, clamped to [0,1]; a vanishing second distance
yields confidence zero. -/
def classifySeason (d : Descriptor) : Season × ℚ :=
  let nt := nearestTwo d seasonCentroids
  (nt.1.1, if nt.2 = 0 then 0 else clamp01 (1 - nt.1.2 / nt.2))

/-! Upload-form validation (embedded from the upload-form component). -/

/-- A dropped file, abstracted to the fields the validation reads. -/
structure DroppedFile where
  type : String
  size : Nat
  name : String
deriving DecidableEq, Repr

/-- The upload-form state touched by the drop handler. -/
structure UploadFormState where
  file : Option DroppedFile
  preview : Option String
  error : Option String
deriving DecidableEq, Repr

/-- Boolean string-prefix test on the underlying character lists; reimplements
the string startsWith check so that concrete instances evaluate in the
kernel. -/
def strStartsWith (s p : String) : Bool := List.isPrefixOf p.data s.data

/-- The object URL created for a preview, modelled as a fixed deterministic
encoding of the dropped file. -/
def objectUrl (f : DroppedFile) : String := "blob:" ++ f.name

/-- A file passes validation when its MIME type starts with image slash and
its size is at most 5 MiB. -/
def fileAccepted (f : DroppedFile) : Bool :=
  strStartsWith f.type "image/" && decide (f.size ≤ 5 * 1024 * 1024)

/-- The drop handler of the upload form: it clears the error, rejects
non-image MIME types with the image-file message, rejects files over the 5 MiB
limit with the size message (leaving file and preview untouched in both
cases), and otherwise stores the file and its preview URL. -/
def onDrop (s : UploadFormState) (f : DroppedFile) : UploadFormState :=
  if strStartsWith f.type "image/" = false then
    { s with error := some "Please upload an image file" }
  else if 5 * 1024 * 1024 < f.size then
    { s with error := some "File size should be less than 5MB" }
  else
    { file := some f, preview := some (objectUrl f), error := none }

/-! Analysis flow with fallback (embedded from the upload-form submit path). -/

/-- Outcome of an external analysis run. -/
inductive Outcome (α : Type)
  | success : α → Outcome α
  | failure : String → Outcome α
deriving DecidableEq, Repr

/-- The legacy backend analysis result: face shape, color season and an
optional note; the record carries no analysis-method field and no confidence
field. -/
structure LegacyAnalysisResult where
  face_shape : String
  color_season : String
  note : Option String
deriving DecidableEq, Repr

/-- What the upload form ends up with after submission. -/
inductive UploadOutcome
  | enhanced : ComprehensiveAnalysisResult → UploadOutcome
  | legacy : LegacyAnalysisResult → UploadOutcome
  | failed : String → UploadOutcome
deriving DecidableEq, Repr

/-- The submit path of the upload form: the enhanced local analysis is run
first; on its failure the legacy backend analysis is run instead, and only
when that also fails does the submission end in an error state. -/
def runAnalysisFlow (enhancedRun : Outcome ComprehensiveAnalysisResult)
    (legacyRun : Outcome LegacyAnalysisResult) : UploadOutcome :=
  match enhancedRun with
  | Outcome.success r => UploadOutcome.enhanced r
  | Outcome.failure _ =>
    match legacyRun with
    | Outcome.success l => UploadOutcome.legacy l
    | Outcome.failure msg => UploadOutcome.failed msg

/-- The analysis method reported inside an upload outcome. Neither result
record carries a method field, so no outcome reports one. -/
def reportedMethod : UploadOutcome → Option String
  | UploadOutcome.enhanced _ => none
  | UploadOutcome.legacy _ => none
  | UploadOutcome.failed _ => none

/-! Walkthrough navigation (embedded from the walkthrough-flow component). -/

/-- A navigation step of the walkthrough. -/
inductive WalkStep
  | next
  | previous
deriving DecidableEq, Repr

/-- The event emitted by a navigation step. -/
inductive WalkEvent
  | advanced
  | steppedBack
  | completed
  | wentBack
deriving DecidableEq, Repr

/-- One navigation step of the walkthrough over a color list of the given
total length: next at the last index emits completion without moving,
previous at index zero emits the back event without moving, and every other
step moves by one. -/
def walkStep (total idx : Nat) : WalkStep → Nat × WalkEvent
  | WalkStep.next =>
    if idx = total - 1 then (idx, WalkEvent.completed) else (idx + 1, WalkEvent.advanced)
  | WalkStep.previous =>
    if idx = 0 then (idx, WalkEvent.wentBack) else (idx - 1, WalkEvent.steppedBack)

/-- The index reached after a sequence of navigation steps. -/
def runWalk (total : Nat) (idx : Nat) : List WalkStep → Nat
  | [] => idx
  | s :: rest => runWalk total (walkStep total idx s).1 rest

/-! Concrete sample values used by witnesses and counterexamples. -/

/-- Concrete well-formed measurements. -/
def sampleMeasurements : FaceMeasurements :=
  { faceWidth := 100, faceHeight := 120, jawWidth := 80, foreheadWidth := 90,
    cheekboneWidth := 95, jawlineAngle := 45 }

/-- Concrete degenerate measurements with zero face width. -/
def degenerateMeasurements : FaceMeasurements :=
  { faceWidth := 0, faceHeight := 120, jawWidth := 80, foreheadWidth := 90,
    cheekboneWidth := 95, jawlineAngle := 45 }

/-- A concrete basic result. -/
def sampleResultA : BasicAnalysisResult :=
  { face_shape := "Oval", color_season := "Warm Autumn", faces_detected := some 1, palette := none }

/-- A second, different concrete basic result. -/
def sampleResultB : BasicAnalysisResult :=
  { face_shape := "Round", color_season := "Cool Summer", faces_detected := some 1, palette := none }

/-- A concrete basic result with zero detected faces. -/
def zeroFacesResult : BasicAnalysisResult :=
  { face_shape := "Oval", color_season := "Warm Autumn", faces_detected := some 0, palette := none }

/-! Claim theorems. -/

/-- C1: for every measurement set whose derived face width and face height are
both strictly positive, the face-shape classifier returns a label belonging to
the fixed seven-way enumeration and a confidence in the closed interval
[0,1]. -/
theorem claim1_classify_valid (m : FaceMeasurements)
    (hw : 0 < m.faceWidth) (hh : 0 < m.faceHeight) :
    ∃ res, classifyFaceShape m = Except.ok res ∧
      res.faceShape ∈ [FaceShape.heart, FaceShape.oblong, FaceShape.oval, FaceShape.round,
        FaceShape.square, FaceShape.triangle, FaceShape.diamond] ∧
      0 ≤ res.confidence ∧ res.confidence ≤ 1 := by
  have hcond : ¬ (m.faceWidth ≤ 0 ∨ m.faceHeight ≤ 0) := by
    push_neg
    exact ⟨hw, hh⟩
  have heq : classifyFaceShape m = Except.ok
      { faceShape :=
          if (bestTwo (ruleScores m)).1.2 = (bestTwo (ruleScores m)).2 then FaceShape.oval
          else (bestTwo (ruleScores m)).1.1
        confidence := clamp01 ((bestTwo (ruleScores m)).1.2 - (bestTwo (ruleScores m)).2) } := by
    unfold classifyFaceShape
    rw [if_neg hcond]
  exact ⟨_, heq, faceShape_mem_enum _, clamp01_nonneg _, clamp01_le_one _⟩

/-- Witness for C1 at concrete measurements. -/
theorem claim1_classify_valid_witness :
    0 < sampleMeasurements.faceWidth ∧ 0 < sampleMeasurements.faceHeight ∧
      (∃ res, classifyFaceShape sampleMeasurements = Except.ok res ∧
        res.faceShape ∈ [FaceShape.heart, FaceShape.oblong, FaceShape.oval, FaceShape.round,
          FaceShape.square, FaceShape.triangle, FaceShape.diamond] ∧
        0 ≤ res.confidence ∧ res.confidence ≤ 1) :=
  ⟨by norm_num [sampleMeasurements], by norm_num [sampleMeasurements],
    claim1_classify_valid sampleMeasurements (by norm_num [sampleMeasurements])
      (by norm_num [sampleMeasurements])⟩

/-- C3: for every input whose derived face width or face height is zero or
negative, the classifier fails with the DegenerateGeometry error and never
returns a face-shape label. -/
theorem claim3_degenerate_geometry (m : FaceMeasurements)
    (h : m.faceWidth ≤ 0 ∨ m.faceHeight ≤ 0) :
    classifyFaceShape m = Except.error AnalysisError.degenerateGeometry := by
  unfold classifyFaceShape
  rw [if_pos h]

/-- Witness for C3 at concrete degenerate measurements. -/
theorem claim3_degenerate_geometry_witness :
    (degenerateMeasurements.faceWidth ≤ 0 ∨ degenerateMeasurements.faceHeight ≤ 0) ∧
      classifyFaceShape degenerateMeasurements
        = Except.error AnalysisError.degenerateGeometry :=
  ⟨Or.inl (by norm_num [degenerateMeasurements]),
    claim3_degenerate_geometry degenerateMeasurements
      (Or.inl (by norm_num [degenerateMeasurements]))⟩

/-- C2 counterexample: the face-shape confidence of the record assembled by
handleStartWalkthrough is the same value 0.8 on two different concrete inputs,
so it is a fixed constant independent of the measurements rather than a
normalized rule-score margin. -/
theorem claim2_constant_confidence_ce :
    sampleResultA ≠ sampleResultB ∧
    (assembleComprehensiveResult sampleResultA).faceShape.confidence = 4/5 ∧
    (assembleComprehensiveResult sampleResultB).faceShape.confidence = 4/5 :=
  ⟨by decide, rfl, rfl⟩

/-- C2 amended: in the record assembled by handleStartWalkthrough, the
face-shape confidence is the fixed constant 0.8 for every input, independent
of the measurements; it is not the normalized margin between rule scores. -/
theorem claim2_constant_confidence_amended (r : BasicAnalysisResult) :
    (assembleComprehensiveResult r).faceShape.confidence = 4/5 := rfl

/-- C4 counterexample: with zero detected faces the shipped results display
still renders a season result, under the general-analysis banner, instead of
surfacing an InsufficientSamples failure. -/
theorem claim4_empty_samples_ce :
    (renderResults zeroFacesResult).banner
        = some "No face detected, providing general analysis" ∧
    (renderResults zeroFacesResult).colorSeasonHeading = "Color Season: Warm Autumn" :=
  ⟨rfl, rfl⟩

/-- C4 amended: the spec-modelled color statistics computation fails with
InsufficientSamples on the empty sample set and never crashes, but the shipped
display pipeline does not fail the analysis: whenever zero faces are detected
it renders the general-analysis banner and still shows the season result. -/
theorem claim4_empty_samples_amended (r : BasicAnalysisResult)
    (h : r.faces_detected = some 0) :
    colorStatistics [] = Except.error AnalysisError.insufficientSamples ∧
    (renderResults r).banner = some "No face detected, providing general analysis" ∧
    (renderResults r).colorSeasonHeading = "Color Season: " ++ r.color_season := by
  refine ⟨rfl, ?_, rfl⟩
  have hb : (renderResults r).banner = r.faces_detected.map facesDetectedBanner := rfl
  rw [hb, h]
  rfl

/-- Witness for the amended C4 at a concrete zero-face result. -/
theorem claim4_empty_samples_amended_witness :
    zeroFacesResult.faces_detected = some 0 ∧
      (colorStatistics [] = Except.error AnalysisError.insufficientSamples ∧
       (renderResults zeroFacesResult).banner
          = some "No face detected, providing general analysis" ∧
       (renderResults zeroFacesResult).colorSeasonHeading
          = "Color Season: " ++ zeroFacesResult.color_season) :=
  ⟨rfl, claim4_empty_samples_amended zeroFacesResult rfl⟩

/-- A concrete basic result without a palette. -/
def noPaletteResult : BasicAnalysisResult :=
  { face_shape := "Square", color_season := "True Winter", faces_detected := some 1, palette := none }

/-- C5: when the face-shape portion is present but the color palette is absent,
the entry component still renders the results display and the rendered page
carries both section headings with the palette block omitted; no failure
occurs. -/
theorem claim5_partial_result_rendered (r : BasicAnalysisResult) (url : Option String)
    (h : r.palette = none) :
    entryView true (hasWalkthroughData r url) = EntryView.resultsDisplay ∧
    (renderResults r).paletteSection = none ∧
    (renderResults r).faceShapeHeading = "Face Shape: " ++ r.face_shape ∧
    (renderResults r).colorSeasonHeading = "Color Season: " ++ r.color_season := by
  have hdata : hasWalkthroughData r url = false := by
    unfold hasWalkthroughData
    rw [h]
    rfl
  refine ⟨?_, ?_, rfl, rfl⟩
  · rw [hdata]
    rfl
  · have hp : (renderResults r).paletteSection
        = r.palette.map (fun p => (⟨p.description, p.recommended, p.avoid⟩ : RenderedPalette)) :=
      rfl
    rw [hp, h]
    rfl

/-- Witness for C5 at a concrete palette-free result. -/
theorem claim5_partial_result_rendered_witness :
    noPaletteResult.palette = none ∧
      (entryView true (hasWalkthroughData noPaletteResult (some "blob:photo.jpg"))
          = EntryView.resultsDisplay ∧
       (renderResults noPaletteResult).paletteSection = none ∧
       (renderResults noPaletteResult).faceShapeHeading
          = "Face Shape: " ++ noPaletteResult.face_shape ∧
       (renderResults noPaletteResult).colorSeasonHeading
          = "Color Season: " ++ noPaletteResult.color_season) :=
  ⟨rfl, claim5_partial_result_rendered noPaletteResult (some "blob:photo.jpg") rfl⟩

/-- A concrete legacy backend result. -/
def legacySample : LegacyAnalysisResult :=
  { face_shape := "Oval", color_season := "Warm Autumn", note := none }

/-- C6 counterexample: on a concrete primary-analysis failure the flow falls
back to the legacy result, but that result reports no method equal to
fallback; and when the legacy path also fails, no result is produced at
all. -/
theorem claim6_fallback_ce :
    runAnalysisFlow (Outcome.failure "enhanced analysis failed") (Outcome.success legacySample)
        = UploadOutcome.legacy legacySample ∧
    reportedMethod (runAnalysisFlow (Outcome.failure "enhanced analysis failed")
        (Outcome.success legacySample)) ≠ some "fallback" ∧
    runAnalysisFlow (Outcome.failure "enhanced analysis failed") (Outcome.failure "Upload failed")
        = UploadOutcome.failed "Upload failed" :=
  ⟨rfl, by decide, rfl⟩

/-- C6 amended: on primary failure the flow falls back to the legacy backend
path; when that succeeds it yields the legacy result rather than failing
outright, but the result reports no analysis method (in particular not
fallback) and carries no confidence to cap; when the legacy path also fails,
the submission fails with that error. -/
theorem claim6_fallback_amended (leg : Outcome LegacyAnalysisResult) (msg : String) :
    (∀ l, leg = Outcome.success l →
        runAnalysisFlow (Outcome.failure msg) leg = UploadOutcome.legacy l ∧
        reportedMethod (runAnalysisFlow (Outcome.failure msg) leg) = none) ∧
    (∀ m, leg = Outcome.failure m →
        runAnalysisFlow (Outcome.failure msg) leg = UploadOutcome.failed m) := by
  constructor
  · rintro l rfl
    exact ⟨rfl, rfl⟩
  · rintro m rfl
    rfl

/-- Witness for the amended C6 at a concrete failed primary run. -/
theorem claim6_fallback_amended_witness :
    runAnalysisFlow (Outcome.failure "enhanced failed") (Outcome.success legacySample)
        = UploadOutcome.legacy legacySample ∧
      reportedMethod (runAnalysisFlow (Outcome.failure "enhanced failed")
        (Outcome.success legacySample)) = none :=
  (claim6_fallback_amended (Outcome.success legacySample) "enhanced failed").1 legacySample rfl

/-- Modelled from the spec: the Recommendation Assembler combines the two
sub-confidences as a weighted average with configurable weights (default one
half each); the assembler implementation is absent from the sources. -/
def overallConfidence (w₁ w₂ c₁ c₂ : ℚ) : ℚ := w₁ * c₁ + w₂ * c₂

/-- C7: the overall confidence of the record assembled by
handleStartWalkthrough equals the default 0.5/0.5 weighted average of its
face-shape confidence and its color-season confidence (both 0.8, so the
overall value 0.8 is exactly their average). -/
theorem claim7_overall_confidence (r : BasicAnalysisResult) :
    (assembleComprehensiveResult r).confidence =
      overallConfidence (1/2) (1/2)
        (assembleComprehensiveResult r).faceShape.confidence
        (assembleComprehensiveResult r).colorSeason.confidence := by
  show (4/5 : ℚ) = 1/2 * (4/5) + 1/2 * (4/5)
  norm_num

/-- C8: the season classifier is deterministic: equal descriptor tuples yield
the same season label and the same confidence, and the confidence lies in
[0,1]. -/
theorem claim8_season_deterministic (d₁ d₂ : Descriptor) (h : d₁ = d₂) :
    classifySeason d₁ = classifySeason d₂ ∧
    0 ≤ (classifySeason d₁).2 ∧ (classifySeason d₁).2 ≤ 1 := by
  have hconf : (classifySeason d₁).2 =
      if (nearestTwo d₁ seasonCentroids).2 = 0 then 0
      else clamp01 (1 - (nearestTwo d₁ seasonCentroids).1.2 / (nearestTwo d₁ seasonCentroids).2) :=
    rfl
  subst h
  refine ⟨rfl, ?_, ?_⟩ <;> rw [hconf]
  · split
    · exact le_refl 0
    · exact clamp01_nonneg _
  · split
    · exact zero_le_one
    · exact clamp01_le_one _

/-- A concrete descriptor tuple. -/
def sampleDescriptor : Descriptor :=
  { undertone := 1, contrast := 7/10, lightness := 60, chroma := 45 }

/-- Witness for C8 at a concrete descriptor tuple. -/
theorem claim8_season_deterministic_witness :
    sampleDescriptor = sampleDescriptor ∧
      (classifySeason sampleDescriptor = classifySeason sampleDescriptor ∧
       0 ≤ (classifySeason sampleDescriptor).2 ∧ (classifySeason sampleDescriptor).2 ≤ 1) :=
  ⟨rfl, claim8_season_deterministic sampleDescriptor sampleDescriptor rfl⟩

/-- C9: the drop handler rejects non-image MIME types with the image-file
message and over-limit sizes with the size message, leaving the selected file
and preview unchanged; a file is stored (with its preview) exactly through the
accepted path, so the pipeline is entered only for accepted files. -/
theorem claim9_upload_validation (s : UploadFormState) (f : DroppedFile) :
    (strStartsWith f.type "image/" = false →
      onDrop s f = { s with error := some "Please upload an image file" }) ∧
    (strStartsWith f.type "image/" = true → 5 * 1024 * 1024 < f.size →
      onDrop s f = { s with error := some "File size should be less than 5MB" }) ∧
    (fileAccepted f = true →
      onDrop s f = { file := some f, preview := some (objectUrl f), error := none }) ∧
    ((onDrop s f).file ≠ s.file → fileAccepted f = true) := by
  refine ⟨fun h1 => ?_, fun h1 h2 => ?_, fun h3 => ?_, fun h4 => ?_⟩
  · unfold onDrop
    rw [if_pos h1]
  · have h1n : ¬ (strStartsWith f.type "image/" = false) := by simp [h1]
    unfold onDrop
    rw [if_neg h1n, if_pos h2]
  · have h3' := h3
    unfold fileAccepted at h3'
    rw [Bool.and_eq_true] at h3'
    obtain ⟨ht, hs⟩ := h3'
    rw [decide_eq_true_iff] at hs
    have htn : ¬ (strStartsWith f.type "image/" = false) := by simp [ht]
    unfold onDrop
    rw [if_neg htn, if_neg (by omega)]
  · by_cases hacc : fileAccepted f = true
    · exact hacc
    · exfalso
      apply h4
      unfold onDrop
      by_cases ht : strStartsWith f.type "image/" = false
      · rw [if_pos ht]
      · have ht' : strStartsWith f.type "image/" = true := by
          revert ht
          cases strStartsWith f.type "image/" <;> simp
        have hs : 5 * 1024 * 1024 < f.size := by
          by_contra hle
          apply hacc
          unfold fileAccepted
          rw [ht', Bool.true_and, decide_eq_true_eq]
          omega
        rw [if_neg ht, if_pos hs]

/-- A concrete rejected (non-image) file. -/
def rejectedFile : DroppedFile :=
  { type := "application/pdf", size := 1000, name := "resume.pdf" }

/-- A concrete empty upload-form state. -/
def emptyUploadState : UploadFormState := { file := none, preview := none, error := none }

/-- Witness for C9 at a concrete non-image file. -/
theorem claim9_upload_validation_witness :
    strStartsWith rejectedFile.type "image/" = false ∧
      onDrop emptyUploadState rejectedFile
        = { emptyUploadState with error := some "Please upload an image file" } :=
  ⟨by decide, (claim9_upload_validation emptyUploadState rejectedFile).1 (by decide)⟩

/-- C10: over a color list of length at least one, the walkthrough index stays
within bounds under every sequence of navigation steps; the next step at the
last index emits completion without moving, and the previous step at index
zero emits the back event without moving. -/
theorem claim10_walkthrough_invariant (total : Nat) (h₁ : 1 ≤ total) (steps : List WalkStep)
    (idx : Nat) (hidx : idx ≤ total - 1) :
    runWalk total idx steps ≤ total - 1 ∧
    walkStep total (total - 1) WalkStep.next = (total - 1, WalkEvent.completed) ∧
    walkStep total 0 WalkStep.previous = (0, WalkEvent.wentBack) := by
  refine ⟨?_, by simp [walkStep], by simp [walkStep]⟩
  induction steps generalizing idx with
  | nil => simpa [runWalk] using hidx
  | cons s rest ih =>
    have hstep : (walkStep total idx s).1 ≤ total - 1 := by
      cases s with
      | next =>
        by_cases h : idx = total - 1
        · simp [walkStep, h]
        · have hlt : idx < total - 1 := lt_of_le_of_ne hidx h
          simp only [walkStep, if_neg h]
          omega
      | previous =>
        by_cases h : idx = 0
        · simp only [walkStep, if_pos h]
          omega
        · simp only [walkStep, if_neg h]
          omega
    simpa [runWalk] using ih ((walkStep total idx s).1) hstep

/-- Witness for C10 over a concrete three-color walkthrough. -/
theorem claim10_walkthrough_invariant_witness :
    1 ≤ 3 ∧ (0 : Nat) ≤ 3 - 1 ∧
      (runWalk 3 0 [WalkStep.next, WalkStep.next, WalkStep.next, WalkStep.previous] ≤ 3 - 1 ∧
       walkStep 3 (3 - 1) WalkStep.next = (3 - 1, WalkEvent.completed) ∧
       walkStep 3 0 WalkStep.previous = (0, WalkEvent.wentBack)) :=
  ⟨by norm_num, by norm_num,
    claim10_walkthrough_invariant 3 (by norm_num)
      [WalkStep.next, WalkStep.next, WalkStep.next, WalkStep.previous] 0 (by norm_num)⟩

end Chromalyze
